import Mathlib

/-!
Shallow embedding of the cloud-provider detection and metadata-collection
code of `rhsmlib/cloud` (files `providers/aws.py`, `providers/gcp.py`,
`collector.py`), together with theorems checking the natural-language
specification against it.

Python strings become `String`, floats (times, probabilities) become `ℚ`,
`None`-returning fallible code becomes `Option`, and the one place where a
Python exception can escape uncaught is modelled with an explicit `PyRes.exn`
result.  Hardware-fact dictionaries become association lists with first-match
lookup (Python dicts have unique keys, so the first match is the match).
-/

/-- A value in the hardware-facts mapping: the fact collector supplies
strings and booleans (`hw_info` values). -/
inductive FactValue where
  | str (s : String)
  | bool (b : Bool)
deriving DecidableEq

/-- The hardware-facts mapping (`hw_info`), an immutable snapshot.
Keys are unique in the Python dict; we model it as an association list
with first-match lookup. -/
abbrev FactSet : Type := List (String × FactValue)

/-- Dictionary lookup: `hw_info[k]` / `k in hw_info`. -/
def lookupFact (fs : FactSet) (k : String) : Option FactValue :=
  (List.find? (fun p => p.1 == k) fs).map Prod.snd

/-- Prefix test on character lists. -/
def listPrefix : List Char → List Char → Bool
  | [], _ => true
  | _ :: _, [] => false
  | a :: as, b :: bs => a == b && listPrefix as bs

/-- Contiguous-sublist test on character lists, by sliding over suffixes. -/
def listInfix (needle : List Char) : List Char → Bool
  | [] => needle.isEmpty
  | c :: rest => listPrefix needle (c :: rest) || listInfix needle rest

/-- Python substring test `needle in hay`. -/
def strContains (hay needle : String) : Bool :=
  listInfix needle.toList hay.toList

/-- Python `str.lower()` (ASCII lowering suffices for the keywords used). -/
def strLower (s : String) : String :=
  String.mk (s.toList.map Char.toLower)

/-- Python `str.startswith(pre)`. -/
def strStarts (s pre : String) : Bool :=
  listPrefix pre.toList s.toList

/-- The combined test `key in hw_info and needle in hw_info[key]` used by the
detectors.  A boolean fact value never matches (the Python code would raise
`TypeError` on `in` applied to a non-string; the facts consulted here are
strings in practice). -/
def strFactContains (fs : FactSet) (key needle : String) : Bool :=
  match lookupFact fs key with
  | some (FactValue.str v) => strContains v needle
  | _ => false

/-- Modelled from the spec: the base class `CloudDetector` (and with it the
method `is_vm`) is not under `src/`; only the per-provider subclasses, which
delegate to it via `super()`, are.  Spec section 4.1: "`is_vm`: returns true
iff the fact `virt.is_guest` is present and true."  The repository's tests
always supply `virt.is_guest` as a boolean, so presence-and-true means the
fact maps to the boolean `true`. -/
def isVM (fs : FactSet) : Bool :=
  match lookupFact fs "virt.is_guest" with
  | some (FactValue.bool b) => b
  | _ => false

/-- `AWSCloudDetector.is_running_on_cloud` (aws.py lines 56 to 76). -/
def awsIsRunningOnCloud (fs : FactSet) : Bool :=
  if isVM fs = false then false
  else if strFactContains fs "dmi.bios.version" "amazon" then true
  else if strFactContains fs "dmi.bios.vendor" "Amazon EC2" then true
  else if strFactContains fs "virt.host_type" "aws" then true
  else false

/-- One iteration of the keyword scan of
`AWSCloudDetector.is_likely_running_on_cloud` (aws.py lines 108 to 116):
non-strings are skipped, and an `elif` chain sets at most one of the three
found-flags (order: "amazon ec2", "amazon", "aws"). -/
def awsScanStep (acc : Bool × Bool × Bool) (v : FactValue) : Bool × Bool × Bool :=
  match v with
  | FactValue.bool _ => acc
  | FactValue.str s =>
    let l := strLower s
    if strContains l "amazon ec2" then (true, acc.2.1, acc.2.2)
    else if strContains l "amazon" then (acc.1, true, acc.2.2)
    else if strContains l "aws" then (acc.1, acc.2.1, true)
    else acc

/-- The accumulated found-flags of the AWS keyword scan over all fact
values, in dictionary order: (found amazon ec2, found amazon, found aws). -/
def awsScanFlags (fs : FactSet) : Bool × Bool × Bool :=
  List.foldl (fun acc p => awsScanStep acc p.2) (false, false, false) fs

/-- `AWSCloudDetector.is_likely_running_on_cloud` (aws.py lines 78 to 124).
Probabilities are exact rationals standing for the Python float literals. -/
def awsIsLikelyRunningOnCloud (fs : FactSet) : ℚ :=
  if isVM fs = false then 0
  else
    let pHost : ℚ :=
      match lookupFact fs "virt.host_type" with
      | some (FactValue.str v) =>
        if strContains v "kvm" then 3/10
        else if strContains v "xen" then 2/10
        else 0
      | _ => 0
    let pUuid : ℚ :=
      match lookupFact fs "dmi.system.uuid" with
      | some (FactValue.str v) =>
        if strStarts (strLower v) "ec2" then 1/10 else 0
      | _ => 0
    let fl := awsScanFlags fs
    pHost + pUuid + (if fl.1 then 3/10 else 0)
      + (if fl.2.1 then 2/10 else 0) + (if fl.2.2 then 1/10 else 0)

/-- `GCPCloudDetector.is_running_on_cloud` (gcp.py lines 48 to 63): note the
`.lower()` on the vendor string, unlike the AWS strong signals. -/
def gcpIsRunningOnCloud (fs : FactSet) : Bool :=
  if isVM fs = false then false
  else
    match lookupFact fs "dmi.bios.vendor" with
    | some (FactValue.str v) => strContains (strLower v) "google"
    | _ => false

/-- One iteration of the keyword scan of
`GCPCloudDetector.is_likely_running_on_cloud` (gcp.py lines 85 to 91). -/
def gcpScanStep (acc : Bool × Bool) (v : FactValue) : Bool × Bool :=
  match v with
  | FactValue.bool _ => acc
  | FactValue.str s =>
    let l := strLower s
    if strContains l "google" then (true, acc.2)
    else if strContains l "gcp" then (acc.1, true)
    else acc

/-- Accumulated found-flags of the GCP keyword scan:
(found google, found gcp). -/
def gcpScanFlags (fs : FactSet) : Bool × Bool :=
  List.foldl (fun acc p => gcpScanStep acc p.2) (false, false) fs

/-- `GCPCloudDetector.is_likely_running_on_cloud` (gcp.py lines 65 to 97). -/
def gcpIsLikelyRunningOnCloud (fs : FactSet) : ℚ :=
  if isVM fs = false then 0
  else
    let pHost : ℚ :=
      match lookupFact fs "virt.host_type" with
      | some (FactValue.str v) => if strContains v "kvm" then 3/10 else 0
      | _ => 0
    let fl := gcpScanFlags fs
    pHost + (if fl.1 then 3/10 else 0) + (if fl.2 then 1/10 else 0)

/-!
AWS metadata collector (`AWSCloudCollector`, aws.py lines 127 to 450).

The collector is stateful (the in-memory token pair) and interacts with the
network, the filesystem and the clock.  Each method becomes a function of the
collector state and an environment describing one call's external behaviour;
it returns a result, the new state, and the trace of external events (HTTP
requests and cache-file accesses) the call performed.  Python's uncaught
exception path (the `open()` call of `_get_token_from_cache_file` sits
outside the `try` block) is a distinct `PyRes.exn` result.
-/

/-- The in-memory collector state: `self._token` and `self._token_ctime`
(aws.py lines 156 to 164, both initialised to `None`). -/
structure CollectorState where
  token : Option String
  tokenCtime : Option ℚ
deriving DecidableEq

/-- Outcome of one HTTP request: a connection-level failure
(`requests.ConnectionError`) or a response with status code and body. -/
inductive NetResult where
  | connErr
  | resp (status : Nat) (body : String)
deriving DecidableEq

/-- The `ctime` field of the token cache file, as seen by `float(...)`:
either unparseable (raises `ValueError`, caught) or a number. -/
inductive CtimeField where
  | bad
  | good (x : ℚ)
deriving DecidableEq

/-- State of the on-disk token cache file, at the granularity the reading
code distinguishes: absent (`os.path.exists` false); existing but `open()`
raises `OSError`; existing but `read()` raises `OSError`; unparseable JSON;
or a JSON object with optional `ctime` and `token` fields. -/
inductive FileState where
  | absent
  | openFail
  | readFail
  | invalidJson
  | jsonObj (ctime : Option CtimeField) (token : Option String)
deriving DecidableEq

/-- An externally visible event of one collector call. -/
inductive Event where
  | get (url : String) (headers : List (String × String))
  | put (url : String) (headers : List (String × String))
  | fileRead
  | fileWrite (ctime : Option ℚ) (token : String)
deriving DecidableEq

/-- Result of a fallible collector method: either an uncaught Python
exception propagates, or a value (`Some` string or `None`) is returned. -/
inductive PyRes where
  | exn
  | ok (v : Option String)
deriving DecidableEq

/-- External behaviour of the world during one collector call: the response
each of the three AWS endpoints would give, the token cache file's state,
and the value `time.time()` returns at each call site (the in-memory
validity check, the cache-file expiry check, the server-fetch timestamp). -/
structure Env where
  imdsV1 : NetResult
  tokenPut : NetResult
  imdsV2 : String → NetResult
  file : FileState
  tMem : ℚ
  tFile : ℚ
  tSrv : ℚ

/-- `CLOUD_PROVIDER_TOKEN_TTL = 360` (aws.py line 140). -/
def tokenTTL : ℚ := 360

/-- `CLOUD_PROVIDER_METADATA_URL` (aws.py line 134). -/
def awsMetadataURL : String :=
  "http://169.254.169.254/latest/dynamic/instance-identity/document"

/-- `CLOUD_PROVIDER_TOKEN_URL` (aws.py line 138). -/
def awsTokenURL : String := "http://169.254.169.254/latest/api/token"

/-- `HTTP_HEADERS` (aws.py lines 152 to 154). -/
def awsHttpHeaders : List (String × String) := [("user-agent", "RHSM/1.0")]

/-- Headers of the token PUT request (aws.py lines 278 to 281). -/
def awsTokenPutHeaders : List (String × String) :=
  [("X-aws-ec2-metadata-token-ttl-seconds", "360"), ("user-agent", "RHSM/1.0")]

/-- Headers of the IMDSv2 metadata GET (aws.py lines 339 to 342): the token
attached under the custom header, then the shared headers. -/
def awsV2Headers (token : String) : List (String × String) :=
  [("X-aws-ec2-metadata-token", token), ("user-agent", "RHSM/1.0")]

/-- The body of a 200 response, `None` otherwise: the shared shape of every
fetch primitive's status handling. -/
def respBody200 : NetResult → Option String
  | NetResult.connErr => none
  | NetResult.resp status body => if status == 200 then some body else none

/-- `AWSCloudCollector._is_in_memory_cached_token_valid` (aws.py lines 180
to 192): both fields present and `now < ctime + TTL`. -/
def isInMemoryCachedTokenValid (s : CollectorState) (now : ℚ) : Bool :=
  match s.token, s.tokenCtime with
  | some _, some ct => decide (now < ct + tokenTTL)
  | _, _ => false

/-- `AWSCloudCollector._write_token_to_cache_file` (aws.py lines 194 to
213): no write when `self._token` is `None`; otherwise one cache-file write
of the pair `(str(self._token_ctime), self._token)`. -/
def writeTokenToCacheFile (s : CollectorState) : List Event :=
  match s.token with
  | none => []
  | some t => [Event.fileWrite s.tokenCtime t]

/-- `AWSCloudCollector._get_token_from_cache_file` (aws.py lines 215 to
263).  Branches, in source order: existence check; `open()` (whose `OSError`
is NOT caught — it sits outside the `try` block that guards only `read()`);
`read()`; JSON parse; required keys `ctime` then `token`; `float(ctime)`;
on a successful parse `self._token_ctime` is assigned (the `else` of the
`try`) before the expiry check, which returns the token or `None`. -/
def getTokenFromCacheFile (s : CollectorState) (f : FileState) (now : ℚ) :
    PyRes × CollectorState × List Event :=
  match f with
  | FileState.absent => (PyRes.ok none, s, [Event.fileRead])
  | FileState.openFail => (PyRes.exn, s, [Event.fileRead])
  | FileState.readFail => (PyRes.ok none, s, [Event.fileRead])
  | FileState.invalidJson => (PyRes.ok none, s, [Event.fileRead])
  | FileState.jsonObj ctimeField tokenField =>
    match ctimeField with
    | none => (PyRes.ok none, s, [Event.fileRead])
    | some cf =>
      match tokenField with
      | none => (PyRes.ok none, s, [Event.fileRead])
      | some tk =>
        match cf with
        | CtimeField.bad => (PyRes.ok none, s, [Event.fileRead])
        | CtimeField.good x =>
          let s1 : CollectorState := { s with tokenCtime := some x }
          if now < x + tokenTTL then (PyRes.ok (some tk), s1, [Event.fileRead])
          else (PyRes.ok none, s1, [Event.fileRead])

/-- `AWSCloudCollector._get_token_from_server` (aws.py lines 265 to 294):
PUT to the token URL; on a 200 response, store the token and the current
time in memory, write the cache file, and return the body; otherwise
(connection error or non-200) return `None` with the state unchanged. -/
def getTokenFromServer (s : CollectorState) (e : Env) :
    PyRes × CollectorState × List Event :=
  match e.tokenPut with
  | NetResult.connErr => (PyRes.ok none, s, [Event.put awsTokenURL awsTokenPutHeaders])
  | NetResult.resp status body =>
    if status == 200 then
      let s1 : CollectorState := { token := some body, tokenCtime := some e.tSrv }
      (PyRes.ok (some body), s1,
        Event.put awsTokenURL awsTokenPutHeaders :: writeTokenToCacheFile s1)
    else (PyRes.ok none, s, [Event.put awsTokenURL awsTokenPutHeaders])

/-- `AWSCloudCollector._get_token` (aws.py lines 296 to 309): in-memory
cache, else cache file, else server. -/
def getToken (s : CollectorState) (e : Env) : PyRes × CollectorState × List Event :=
  if isInMemoryCachedTokenValid s e.tMem then (PyRes.ok s.token, s, [])
  else
    match getTokenFromCacheFile s e.file e.tFile with
    | (PyRes.exn, s1, ev1) => (PyRes.exn, s1, ev1)
    | (PyRes.ok (some t), s1, ev1) => (PyRes.ok (some t), s1, ev1)
    | (PyRes.ok none, s1, ev1) =>
      let r2 := getTokenFromServer s1 e
      (r2.1, r2.2.1, ev1 ++ r2.2.2)

/-- `AWSCloudCollector._get_metadata_from_server_imds_v1` (aws.py lines 311
to 326): a GET with no headers at all (and in particular no token header);
the body on 200, `None` otherwise. -/
def getMetadataFromServerImdsV1 (e : Env) : Option String × List Event :=
  (respBody200 e.imdsV1, [Event.get awsMetadataURL []])

/-- `AWSCloudCollector._get_metadata_from_server_imds_v2` (aws.py lines 328
to 352): obtain a token (propagating its uncaught exception, short-cutting
to `None` when no token could be obtained), then GET with the token attached
as the custom `X-aws-ec2-metadata-token` header. -/
def getMetadataFromServerImdsV2 (s : CollectorState) (e : Env) :
    PyRes × CollectorState × List Event :=
  match getToken s e with
  | (PyRes.exn, s1, ev1) => (PyRes.exn, s1, ev1)
  | (PyRes.ok none, s1, ev1) => (PyRes.ok none, s1, ev1)
  | (PyRes.ok (some t), s1, ev1) =>
    (PyRes.ok (respBody200 (e.imdsV2 t)), s1,
      ev1 ++ [Event.get awsMetadataURL (awsV2Headers t)])

/-- `AWSCloudCollector._get_metadata_from_server` (aws.py lines 354 to 373):
IMDSv1 first; only when it yields nothing, IMDSv2. -/
def getMetadataFromServer (s : CollectorState) (e : Env) :
    PyRes × CollectorState × List Event :=
  match getMetadataFromServerImdsV1 e with
  | (some body, ev1) => (PyRes.ok (some body), s, ev1)
  | (none, ev1) =>
    let r2 := getMetadataFromServerImdsV2 s e
    (r2.1, r2.2.1, ev1 ++ r2.2.2)

/-- `AWSCloudCollector._get_metadata_from_cache` (aws.py lines 173 to 178):
a stub that always returns `None`. -/
def getMetadataFromCache : Option String := none

/-- `AWSCloudCollector.get_metadata` (aws.py lines 426 to 437): cache first
(always absent), then the server. -/
def awsGetMetadata (s : CollectorState) (e : Env) :
    PyRes × CollectorState × List Event :=
  match getMetadataFromCache with
  | some m => (PyRes.ok (some m), s, [])
  | none => getMetadataFromServer s e

/-- Whether an event is an HTTP request. -/
def Event.isNetwork : Event → Bool
  | Event.get _ _ => true
  | Event.put _ _ => true
  | _ => false

/-- Whether an event is a PUT to the token endpoint. -/
def Event.isPut : Event → Bool
  | Event.put _ _ => true
  | _ => false

/-- Whether an event is a cache-file write. -/
def Event.isFileWrite : Event → Bool
  | Event.fileWrite _ _ => true
  | _ => false

/-- Number of HTTP requests in a trace. -/
def netCalls (tr : List Event) : Nat := (tr.filter Event.isNetwork).length

/-- Number of token-endpoint PUT requests in a trace. -/
def putCalls (tr : List Event) : Nat := (tr.filter Event.isPut).length

/-- The tier the AWS keyword scan assigns to one string value, mirroring the
`elif` chain: 2 for "amazon ec2", 1 for "amazon", 0 for "aws", none
otherwise.  At most one tier registers per value. -/
def awsTier (v : String) : Option Nat :=
  let l := strLower v
  if strContains l "amazon ec2" then some 2
  else if strContains l "amazon" then some 1
  else if strContains l "aws" then some 0
  else none

/-- The found-flag of an AWS scan tier. -/
def awsFlagOfTier (fl : Bool × Bool × Bool) : Nat → Bool
  | 2 => fl.1
  | 1 => fl.2.1
  | 0 => fl.2.2
  | _ => false

/-- The tier the GCP keyword scan assigns to one string value: 1 for
"google", 0 for "gcp", none otherwise. -/
def gcpTier (v : String) : Option Nat :=
  let l := strLower v
  if strContains l "google" then some 1
  else if strContains l "gcp" then some 0
  else none

/-- The found-flag of a GCP scan tier. -/
def gcpFlagOfTier (fl : Bool × Bool) : Nat → Bool
  | 1 => fl.1
  | 0 => fl.2
  | _ => false

/-- The freshly initialised collector (`AWSCloudCollector.__init__`). -/
def initState : CollectorState := { token := none, tokenCtime := none }

/-- Environment of the first call in the stale-token scenario: IMDSv1
forbidden, the token endpoint issues token "A", no cache file, clock at 0. -/
def c3Env1 : Env :=
  { imdsV1 := NetResult.resp 404 "", tokenPut := NetResult.resp 200 "A",
    imdsV2 := fun _ => NetResult.connErr, file := FileState.absent,
    tMem := 0, tFile := 0, tSrv := 0 }

/-- Environment of the second call: the cache file has meanwhile been
replaced (by another process) with token "B" created at time 900; the clock
is at 1000, so the in-memory pair (A, 0) is expired but the file is fresh. -/
def c3Env2 : Env :=
  { imdsV1 := NetResult.resp 404 "", tokenPut := NetResult.resp 500 "",
    imdsV2 := fun _ => NetResult.connErr,
    file := FileState.jsonObj (some (CtimeField.good 900)) (some "B"),
    tMem := 1000, tFile := 1000, tSrv := 1000 }

/-- Environment of the third call, clock at 1100: the in-memory pair is now
(token "A", ctime 900). -/
def c3Env3 : Env :=
  { imdsV1 := NetResult.resp 404 "", tokenPut := NetResult.resp 500 "",
    imdsV2 := fun _ => NetResult.connErr, file := FileState.absent,
    tMem := 1100, tFile := 1100, tSrv := 1100 }

/-- Collector state after the first call of the stale-token scenario. -/
def c3S1 : CollectorState := (getToken initState c3Env1).2.1

/-- Collector state after the second call of the stale-token scenario. -/
def c3S2 : CollectorState := (getToken c3S1 c3Env2).2.1

/-- First-call environment of the idempotence scenario: IMDSv1 forbidden
(status 404), token endpoint issues "TOKEN", metadata GET succeeds. -/
def c6Env1 : Env :=
  { imdsV1 := NetResult.resp 404 "", tokenPut := NetResult.resp 200 "TOKEN",
    imdsV2 := fun _ => NetResult.resp 200 "META", file := FileState.absent,
    tMem := 0, tFile := 0, tSrv := 0 }

/-- Second-call environment, 10 seconds later: the in-memory token is still
valid; the token endpoint would now refuse (status 500), which must not
matter because no token request may be made. -/
def c6Env2 : Env :=
  { imdsV1 := NetResult.resp 404 "", tokenPut := NetResult.resp 500 "",
    imdsV2 := fun _ => NetResult.resp 200 "META", file := FileState.absent,
    tMem := 10, tFile := 10, tSrv := 10 }

/-- Trace and result of the second `get_metadata` call of the idempotence
scenario. -/
def c6SecondCall : PyRes × CollectorState × List Event :=
  awsGetMetadata (awsGetMetadata initState c6Env1).2.1 c6Env2

/-- C10: the AWS strong-signal substring tests are case-sensitive: a VM
whose `dmi.bios.version` is the capitalised "Amazon" is not classified as
AWS, while GCP lower-cases `dmi.bios.vendor` before testing, so the
capitalised "Google" is classified as GCP. -/
theorem aws_strong_signal_case_sensitive :
    awsIsRunningOnCloud
      [("virt.is_guest", FactValue.bool true),
       ("dmi.bios.version", FactValue.str "Amazon")] = false
    ∧ gcpIsRunningOnCloud
      [("virt.is_guest", FactValue.bool true),
       ("dmi.bios.vendor", FactValue.str "Google")] = true := by
  decide

/-- C8: whenever the fact `virt.is_guest` is absent or false, `is_vm` is
false and, for both providers, the strong classifier returns false and the
likelihood score is 0.0. -/
theorem not_vm_zero_score (fs : FactSet)
    (h : lookupFact fs "virt.is_guest" = none
       ∨ lookupFact fs "virt.is_guest" = some (FactValue.bool false)) :
    isVM fs = false
    ∧ awsIsRunningOnCloud fs = false
    ∧ awsIsLikelyRunningOnCloud fs = 0
    ∧ gcpIsRunningOnCloud fs = false
    ∧ gcpIsLikelyRunningOnCloud fs = 0 := by
  have hvm : isVM fs = false := by
    unfold isVM
    rcases h with h | h <;> rw [h]
  refine ⟨hvm, ?_, ?_, ?_, ?_⟩
  · simp [awsIsRunningOnCloud, hvm]
  · simp [awsIsLikelyRunningOnCloud, hvm]
  · simp [gcpIsRunningOnCloud, hvm]
  · simp [gcpIsLikelyRunningOnCloud, hvm]

/-- Witness for C8 at the empty fact set. -/
theorem not_vm_zero_score_witness :
    lookupFact ([] : FactSet) "virt.is_guest" = none
    ∧ (isVM ([] : FactSet) = false
       ∧ awsIsRunningOnCloud ([] : FactSet) = false
       ∧ awsIsLikelyRunningOnCloud ([] : FactSet) = 0
       ∧ gcpIsRunningOnCloud ([] : FactSet) = false
       ∧ gcpIsLikelyRunningOnCloud ([] : FactSet) = 0) :=
  ⟨rfl, not_vm_zero_score [] (Or.inl rfl)⟩

/-- C5: evaluation of every cache-file read failure mode.  File missing,
read() failure, invalid JSON, missing `ctime`, missing `token`, unparseable
`ctime` and expired token all yield `None` with no exception; but when the
file exists and `open()` itself raises `OSError` (for example a permission
error), the exception propagates uncaught, because only `read()` sits
inside the `try` block. -/
theorem aws_cache_read_failure_modes :
    (getTokenFromCacheFile initState FileState.absent 0).1 = PyRes.ok none
    ∧ (getTokenFromCacheFile initState FileState.readFail 0).1 = PyRes.ok none
    ∧ (getTokenFromCacheFile initState FileState.invalidJson 0).1 = PyRes.ok none
    ∧ (getTokenFromCacheFile initState
        (FileState.jsonObj none (some "T")) 0).1 = PyRes.ok none
    ∧ (getTokenFromCacheFile initState
        (FileState.jsonObj (some (CtimeField.good 0)) none) 0).1 = PyRes.ok none
    ∧ (getTokenFromCacheFile initState
        (FileState.jsonObj (some CtimeField.bad) (some "T")) 0).1 = PyRes.ok none
    ∧ (getTokenFromCacheFile initState
        (FileState.jsonObj (some (CtimeField.good 0)) (some "T")) 360).1 = PyRes.ok none
    ∧ (getTokenFromCacheFile initState FileState.openFail 0).1 = PyRes.exn := by
  refine ⟨rfl, rfl, rfl, rfl, rfl, rfl, ?_, rfl⟩
  have h : ¬ ((360 : ℚ) < tokenTTL) := by norm_num [tokenTTL]
  simp [getTokenFromCacheFile, h]

/-- C3: the freshness invariant fails.  Token "A" is obtained from the
network at time 0; at time 1000 the cache file (replaced meanwhile by
another process) yields token "B" and, as a side effect, overwrites the
in-memory ctime with the file's ctime 900 while leaving the in-memory token
"A" in place; at time 1100 the in-memory check passes against ctime 900 and
`_get_token` returns token "A" even though 1100 is past A's creation time 0
plus the 360-second TTL. -/
theorem aws_stale_token_returned_past_ttl :
    (getToken initState c3Env1).1 = PyRes.ok (some "A")
    ∧ c3S1 = { token := some "A", tokenCtime := some 0 }
    ∧ (getToken c3S1 c3Env2).1 = PyRes.ok (some "B")
    ∧ c3S2 = { token := some "A", tokenCtime := some 900 }
    ∧ (getToken c3S2 c3Env3).1 = PyRes.ok (some "A")
    ∧ ¬ (c3Env3.tMem < c3Env1.tSrv + tokenTTL) := by
  have hS1 : c3S1 = { token := some "A", tokenCtime := some 0 } := by decide
  have hmem2 : isInMemoryCachedTokenValid c3S1 c3Env2.tMem = false := by
    rw [hS1]
    simp only [isInMemoryCachedTokenValid, c3Env2, tokenTTL]
    norm_num
  have hfile2 : (1000 : ℚ) < 900 + tokenTTL := by norm_num [tokenTTL]
  have hcache2 : getTokenFromCacheFile c3S1 c3Env2.file c3Env2.tFile
      = (PyRes.ok (some "B"), { token := some "A", tokenCtime := some 900 },
         [Event.fileRead]) := by
    rw [hS1]
    simp [getTokenFromCacheFile, c3Env2, hfile2]
  have hS2 : c3S2 = { token := some "A", tokenCtime := some 900 } := by
    show (getToken c3S1 c3Env2).2.1 = _
    simp [getToken, hmem2, hcache2]
  have hmem3 : isInMemoryCachedTokenValid c3S2 c3Env3.tMem = true := by
    rw [hS2]
    simp only [isInMemoryCachedTokenValid, c3Env3, tokenTTL]
    norm_num
  refine ⟨by decide, hS1, ?_, hS2, ?_, ?_⟩
  · simp [getToken, hmem2, hcache2]
  · have : (getToken c3S2 c3Env3).1 = PyRes.ok c3S2.token := by
      simp [getToken, hmem3]
    rw [this, hS2]
  · simp only [c3Env3, c3Env1, tokenTTL]
    norm_num

/-- The trace of a cache-file read is always exactly one file access: no
network request and, in particular, no cache-file write. -/
theorem cacheFileReadTrace (s : CollectorState) (f : FileState) (now : ℚ) :
    (getTokenFromCacheFile s f now).2.2 = [Event.fileRead] := by
  cases f <;> try rfl
  rename_i cf tf
  cases cf <;> try rfl
  rename_i c
  cases tf <;> try rfl
  cases c <;> try rfl
  rename_i x
  by_cases h : now < x + tokenTTL <;> simp [getTokenFromCacheFile, h]

/-- A cache-file read never changes the in-memory token field. -/
theorem cacheFileReadToken (s : CollectorState) (f : FileState) (now : ℚ) :
    ((getTokenFromCacheFile s f now).2.1).token = s.token := by
  cases f <;> try rfl
  rename_i cf tf
  cases cf <;> try rfl
  rename_i c
  cases tf <;> try rfl
  cases c <;> try rfl
  rename_i x
  by_cases h : now < x + tokenTTL <;> simp [getTokenFromCacheFile, h]

/-- A server token fetch writes the cache file only on a 200 response, and
then it writes the token it just stored in memory, stamped with the fetch
time. -/
theorem serverWriteOnlyOnSuccess (s : CollectorState) (e : Env)
    (ct : Option ℚ) (tk : String) :
    Event.fileWrite ct tk ∈ (getTokenFromServer s e).2.2 →
      e.tokenPut = NetResult.resp 200 tk ∧ ct = some e.tSrv
      ∧ (getTokenFromServer s e).2.1.token = some tk := by
  unfold getTokenFromServer
  cases hp : e.tokenPut with
  | connErr => simp
  | resp st body =>
    by_cases h2 : (st == 200) = true
    · have hst : st = 200 := by simpa using h2
      subst hst
      intro hmem
      simp [writeTokenToCacheFile] at hmem
      rcases hmem with ⟨hct, htk⟩
      subst htk
      exact ⟨rfl, hct, rfl⟩
    · simp [h2]

/-- The token field of the state changes only through a 200 response of the
token endpoint, across the whole of `_get_token`. -/
theorem getTokenTokenChange (s : CollectorState) (e : Env) :
    (getToken s e).2.1.token = s.token
    ∨ ∃ b, e.tokenPut = NetResult.resp 200 b ∧ (getToken s e).2.1.token = some b := by
  unfold getToken
  by_cases hm : isInMemoryCachedTokenValid s e.tMem
  · simp [hm]
  · simp only [hm, Bool.false_eq_true, if_false]
    rcases hc : getTokenFromCacheFile s e.file e.tFile with ⟨r, s1, ev1⟩
    have hto : s1.token = s.token := by
      have h0 := cacheFileReadToken s e.file e.tFile
      rw [hc] at h0
      exact h0
    cases r with
    | exn => exact Or.inl hto
    | ok v =>
      cases v with
      | some t => exact Or.inl hto
      | none =>
        unfold getTokenFromServer
        cases hp : e.tokenPut with
        | connErr => exact Or.inl hto
        | resp st body =>
          by_cases h2 : (st == 200) = true
          · have hst : st = 200 := by simpa using h2
            subst hst
            exact Or.inr ⟨body, rfl, rfl⟩
          · refine Or.inl ?_
            have h2f : (st == 200) = false := by simpa using h2
            simp [h2f, hto]

/-- The file writes of `_get_token` happen only on a 200 token response. -/
theorem getTokenWriteOnlyOnSuccess (s : CollectorState) (e : Env)
    (ct : Option ℚ) (tk : String) :
    Event.fileWrite ct tk ∈ (getToken s e).2.2 →
      e.tokenPut = NetResult.resp 200 tk ∧ ct = some e.tSrv := by
  unfold getToken
  by_cases hm : isInMemoryCachedTokenValid s e.tMem
  · simp [hm]
  · simp only [hm, Bool.false_eq_true, if_false]
    rcases hc : getTokenFromCacheFile s e.file e.tFile with ⟨r, s1, ev1⟩
    have hev : ev1 = [Event.fileRead] := by
      have h0 := cacheFileReadTrace s e.file e.tFile
      rw [hc] at h0
      exact h0
    cases r with
    | exn =>
      subst hev
      simp
    | ok v =>
      cases v with
      | some t =>
        subst hev
        simp
      | none =>
        subst hev
        intro hmem
        have hmem2 : Event.fileWrite ct tk ∈ (getTokenFromServer s1 e).2.2 := by
          simpa using hmem
        have h3 := serverWriteOnlyOnSuccess s1 e ct tk hmem2
        exact ⟨h3.1, h3.2.1⟩

/-- The cache-file writes of a whole `get_metadata` call happen only on a
200 response of the token endpoint. -/
theorem metadataWriteOnlyOnSuccess (s : CollectorState) (e : Env)
    (ct : Option ℚ) (tk : String) :
    Event.fileWrite ct tk ∈ (awsGetMetadata s e).2.2 →
      e.tokenPut = NetResult.resp 200 tk := by
  intro hmem
  have hmem2 : Event.fileWrite ct tk ∈ (getToken s e).2.2 := by
    simp only [awsGetMetadata, getMetadataFromCache, getMetadataFromServer,
      getMetadataFromServerImdsV1, getMetadataFromServerImdsV2] at hmem
    rcases hv : respBody200 e.imdsV1 with _ | b
    · rw [hv] at hmem
      rcases hg : getToken s e with ⟨r, s1, ev1⟩
      rw [hg] at hmem
      cases r with
      | exn => simpa using hmem
      | ok v =>
        cases v with
        | some t => simpa using hmem
        | none => simpa using hmem
    · rw [hv] at hmem
      simp at hmem
  exact (getTokenWriteOnlyOnSuccess s e ct tk hmem2).1

/-- C1: the two-phase metadata resolution order.  For every collector state
and server behaviour: a 200 on the unauthenticated IMDSv1 GET returns that
body immediately, with exactly one network event and no token obtained;
only when IMDSv1 yields nothing is a token resolved, and then either no
token could be obtained and the call returns `None` without a second GET,
or the GET is repeated with the token attached as the
`X-aws-ec2-metadata-token` header and the call returns its 200 body, `None`
on any other outcome. -/
theorem aws_metadata_two_phase_order (s : CollectorState) (e : Env) :
    (∀ body, e.imdsV1 = NetResult.resp 200 body →
      awsGetMetadata s e = (PyRes.ok (some body), s, [Event.get awsMetadataURL []]))
    ∧ (respBody200 e.imdsV1 = none →
      ∀ s1 ev1, getToken s e = (PyRes.ok none, s1, ev1) →
        awsGetMetadata s e = (PyRes.ok none, s1, Event.get awsMetadataURL [] :: ev1))
    ∧ (respBody200 e.imdsV1 = none →
      ∀ t s1 ev1, getToken s e = (PyRes.ok (some t), s1, ev1) →
        awsGetMetadata s e
          = (PyRes.ok (respBody200 (e.imdsV2 t)), s1,
             Event.get awsMetadataURL []
               :: (ev1 ++ [Event.get awsMetadataURL (awsV2Headers t)]))) := by
  refine ⟨?_, ?_, ?_⟩
  · intro body h
    simp [awsGetMetadata, getMetadataFromCache, getMetadataFromServer,
      getMetadataFromServerImdsV1, respBody200, h]
  · intro hv s1 ev1 hg
    simp [awsGetMetadata, getMetadataFromCache, getMetadataFromServer,
      getMetadataFromServerImdsV1, getMetadataFromServerImdsV2, hv, hg]
  · intro hv t s1 ev1 hg
    simp [awsGetMetadata, getMetadataFromCache, getMetadataFromServer,
      getMetadataFromServerImdsV1, getMetadataFromServerImdsV2, hv, hg]

/-- Environment for the C1 witness: IMDSv1 answers 200. -/
def c1WitnessEnv : Env :=
  { imdsV1 := NetResult.resp 200 "M1", tokenPut := NetResult.connErr,
    imdsV2 := fun _ => NetResult.connErr, file := FileState.absent,
    tMem := 0, tFile := 0, tSrv := 0 }

/-- Witness for C1: at a concrete environment whose IMDSv1 GET answers 200,
`get_metadata` returns that body with a single unauthenticated GET. -/
theorem aws_metadata_two_phase_order_witness :
    awsGetMetadata initState c1WitnessEnv
      = (PyRes.ok (some "M1"), initState, [Event.get awsMetadataURL []]) :=
  (aws_metadata_two_phase_order initState c1WitnessEnv).1 "M1" rfl

/-- C2: the token resolution order of `_get_token`.  A valid in-memory
token is reused with an empty event trace (no file read, no network
request); otherwise the cache file is read, and a token from it is returned
with only that file read; only when the cache read yields no token is the
token endpoint contacted. -/
theorem aws_token_resolution_order (s : CollectorState) (e : Env) :
    (isInMemoryCachedTokenValid s e.tMem = true →
      getToken s e = (PyRes.ok s.token, s, []))
    ∧ (isInMemoryCachedTokenValid s e.tMem = false →
      ∀ t s1 ev1,
        getTokenFromCacheFile s e.file e.tFile = (PyRes.ok (some t), s1, ev1) →
        getToken s e = (PyRes.ok (some t), s1, ev1))
    ∧ (isInMemoryCachedTokenValid s e.tMem = false →
      ∀ s1 ev1,
        getTokenFromCacheFile s e.file e.tFile = (PyRes.ok none, s1, ev1) →
        getToken s e
          = ((getTokenFromServer s1 e).1, (getTokenFromServer s1 e).2.1,
             ev1 ++ (getTokenFromServer s1 e).2.2)) := by
  refine ⟨?_, ?_, ?_⟩
  · intro h
    simp [getToken, h]
  · intro h t s1 ev1 hc
    simp [getToken, h, hc]
  · intro h s1 ev1 hc
    simp [getToken, h, hc]

/-- Collector state holding a token fetched at time 0, used by witnesses. -/
def warmState : CollectorState := { token := some "T", tokenCtime := some 0 }

/-- Environment for the C2 witness: clock at 10, so the in-memory token of
`warmState` is still valid. -/
def c2WitnessEnv : Env :=
  { imdsV1 := NetResult.connErr, tokenPut := NetResult.connErr,
    imdsV2 := fun _ => NetResult.connErr, file := FileState.absent,
    tMem := 10, tFile := 10, tSrv := 10 }

/-- Witness for C2: a valid in-memory token is reused with no events. -/
theorem aws_token_resolution_order_witness :
    isInMemoryCachedTokenValid warmState c2WitnessEnv.tMem = true
    ∧ getToken warmState c2WitnessEnv = (PyRes.ok (some "T"), warmState, []) := by
  have h : isInMemoryCachedTokenValid warmState c2WitnessEnv.tMem = true := by
    simp [isInMemoryCachedTokenValid, warmState, c2WitnessEnv, tokenTTL]
    norm_num
  exact ⟨h, (aws_token_resolution_order warmState c2WitnessEnv).1 h⟩

/-- C4: the token cache file is written only from the success path of a
network token fetch.  A cache-file read performs exactly one file access
(so no write); the in-memory-reuse branch of `_get_token` performs no
events at all; a file write in `_get_token_from_server` implies a 200
token response whose body is both the written token and the token stored in
memory, stamped with the fetch time; and any file write during a whole
`get_metadata` call implies that 200 token response. -/
theorem aws_cache_write_only_after_fetch (s : CollectorState) (e : Env)
    (f : FileState) (now : ℚ) (ct : Option ℚ) (tk : String) :
    (getTokenFromCacheFile s f now).2.2 = [Event.fileRead]
    ∧ (isInMemoryCachedTokenValid s e.tMem = true → (getToken s e).2.2 = [])
    ∧ (Event.fileWrite ct tk ∈ (getTokenFromServer s e).2.2 →
        e.tokenPut = NetResult.resp 200 tk ∧ ct = some e.tSrv
        ∧ (getTokenFromServer s e).2.1.token = some tk)
    ∧ (Event.fileWrite ct tk ∈ (awsGetMetadata s e).2.2 →
        e.tokenPut = NetResult.resp 200 tk) := by
  refine ⟨cacheFileReadTrace s f now, ?_, serverWriteOnlyOnSuccess s e ct tk,
    metadataWriteOnlyOnSuccess s e ct tk⟩
  intro h
  simp [getToken, h]

/-- Environment for the C4 witness: the token endpoint answers 200 with
body "B" at time 5. -/
def c4WitnessEnv : Env :=
  { imdsV1 := NetResult.connErr, tokenPut := NetResult.resp 200 "B",
    imdsV2 := fun _ => NetResult.connErr, file := FileState.absent,
    tMem := 0, tFile := 0, tSrv := 5 }

/-- Witness for C4: the file write of a successful server fetch carries the
fetched token and its fetch time. -/
theorem aws_cache_write_only_after_fetch_witness :
    Event.fileWrite (some 5) "B" ∈ (getTokenFromServer initState c4WitnessEnv).2.2
    ∧ (c4WitnessEnv.tokenPut = NetResult.resp 200 "B"
       ∧ (some (5 : ℚ)) = some c4WitnessEnv.tSrv
       ∧ (getTokenFromServer initState c4WitnessEnv).2.1.token = some "B") := by
  have hmem :
      Event.fileWrite (some 5) "B" ∈ (getTokenFromServer initState c4WitnessEnv).2.2 := by
    decide
  exact ⟨hmem,
    (aws_cache_write_only_after_fetch initState c4WitnessEnv FileState.absent 0
      (some 5) "B").2.2.1 hmem⟩

/-- C9: the frame effect of `_get_token_from_cache_file`.  It never assigns
the in-memory token field; whenever the file's `ctime` parses, the
in-memory ctime is overwritten with it (the conjunct holds whether or not
the expiry check then fails); the token field changes only through a 200
response of the token endpoint; and after a successful cache read the
in-memory pair can hold a stale token next to the file's fresh ctime, shown
at a concrete input. -/
theorem cache_read_frame_effect (s : CollectorState) (f : FileState)
    (now x : ℚ) (tk : String) (e : Env) :
    ((getTokenFromCacheFile s f now).2.1).token = s.token
    ∧ ((getTokenFromCacheFile s
        (FileState.jsonObj (some (CtimeField.good x)) (some tk)) now).2.1).tokenCtime
        = some x
    ∧ ((getToken s e).2.1.token = s.token
       ∨ ∃ b, e.tokenPut = NetResult.resp 200 b ∧ (getToken s e).2.1.token = some b)
    ∧ getTokenFromCacheFile { token := some "A", tokenCtime := some 0 }
        (FileState.jsonObj (some (CtimeField.good 900)) (some "B")) 1000
      = (PyRes.ok (some "B"), { token := some "A", tokenCtime := some 900 },
         [Event.fileRead]) := by
  refine ⟨cacheFileReadToken s f now, ?_, getTokenTokenChange s e, ?_⟩
  · by_cases h : now < x + tokenTTL <;> simp [getTokenFromCacheFile, h]
  · have h : (1000 : ℚ) < 900 + tokenTTL := by norm_num [tokenTTL]
    simp [getTokenFromCacheFile, h]

/-- C6 (amended): a `get_metadata` call made while the in-memory token is
valid issues no token-endpoint request at all, performs at most two network
calls (the IMDSv1 attempt plus, when IMDSv1 fails, the token-authenticated
IMDSv2 GET), leaves the state unchanged, and when IMDSv1 fails it reuses
the cached token verbatim in the second GET. -/
theorem aws_second_call_reuses_token (s : CollectorState) (e : Env)
    (h : isInMemoryCachedTokenValid s e.tMem = true) :
    putCalls (awsGetMetadata s e).2.2 = 0
    ∧ netCalls (awsGetMetadata s e).2.2 ≤ 2
    ∧ (awsGetMetadata s e).2.1 = s
    ∧ (∀ t, s.token = some t → respBody200 e.imdsV1 = none →
        awsGetMetadata s e
          = (PyRes.ok (respBody200 (e.imdsV2 t)), s,
             [Event.get awsMetadataURL [], Event.get awsMetadataURL (awsV2Headers t)])) := by
  obtain ⟨t, ht⟩ : ∃ t, s.token = some t := by
    unfold isInMemoryCachedTokenValid at h
    cases hs : s.token with
    | none =>
      rw [hs] at h
      cases hct : s.tokenCtime <;> rw [hct] at h <;> simp at h
    | some t => exact ⟨t, rfl⟩
  have hget : getToken s e = (PyRes.ok s.token, s, []) := by
    simp [getToken, h]
  rcases hv : respBody200 e.imdsV1 with _ | b
  · have hmain : awsGetMetadata s e
        = (PyRes.ok (respBody200 (e.imdsV2 t)), s,
           [Event.get awsMetadataURL [], Event.get awsMetadataURL (awsV2Headers t)]) := by
      simp [awsGetMetadata, getMetadataFromCache, getMetadataFromServer,
        getMetadataFromServerImdsV1, getMetadataFromServerImdsV2, hv, hget, ht]
    refine ⟨?_, ?_, ?_, ?_⟩
    · rw [hmain]
      simp [putCalls, Event.isPut]
    · rw [hmain]
      simp [netCalls, Event.isNetwork]
    · rw [hmain]
    · intro t2 ht2 _
      rw [ht2] at ht
      cases ht
      exact hmain
  · have hmain : awsGetMetadata s e
        = (PyRes.ok (some b), s, [Event.get awsMetadataURL []]) := by
      simp [awsGetMetadata, getMetadataFromCache, getMetadataFromServer,
        getMetadataFromServerImdsV1, hv]
    refine ⟨?_, ?_, ?_, ?_⟩
    · rw [hmain]
      simp [putCalls, Event.isPut]
    · rw [hmain]
      simp [netCalls, Event.isNetwork]
    · rw [hmain]
    · intro t2 _ hcontra
      exact Option.noConfusion hcontra

/-- Witness for C6 (amended): with a valid in-memory token, the second
call's trace has zero PUTs and at most two network calls. -/
theorem aws_second_call_reuses_token_witness :
    putCalls (awsGetMetadata warmState c6Env2).2.2 = 0
    ∧ netCalls (awsGetMetadata warmState c6Env2).2.2 ≤ 2 := by
  have h : isInMemoryCachedTokenValid warmState c6Env2.tMem = true := by
    simp [isInMemoryCachedTokenValid, warmState, c6Env2, tokenTTL]
    norm_num
  have h2 := aws_second_call_reuses_token warmState c6Env2 h
  exact ⟨h2.1, h2.2.1⟩

/-- C6 (counterexample to the claim as stated): after a first
`get_metadata` call on an IMDSv2-only instance, the in-memory token is
valid at the second call, yet the second call performs two network
requests (the IMDSv1 attempt and the IMDSv2 GET), not at most one; it does
perform zero token-endpoint PUTs. -/
theorem aws_second_call_exceeds_one_network_call :
    isInMemoryCachedTokenValid (awsGetMetadata initState c6Env1).2.1 c6Env2.tMem = true
    ∧ putCalls c6SecondCall.2.2 = 0
    ∧ ¬ (netCalls c6SecondCall.2.2 ≤ 1) := by
  have hS : (awsGetMetadata initState c6Env1).2.1
      = { token := some "TOKEN", tokenCtime := some 0 } := by decide
  have hmem : isInMemoryCachedTokenValid
      { token := some "TOKEN", tokenCtime := some (0 : ℚ) } 10 = true := by
    simp [isInMemoryCachedTokenValid, tokenTTL]
    norm_num
  have htrace : c6SecondCall.2.2
      = [Event.get awsMetadataURL [], Event.get awsMetadataURL (awsV2Headers "TOKEN")] := by
    show (awsGetMetadata (awsGetMetadata initState c6Env1).2.1 c6Env2).2.2 = _
    rw [hS]
    simp [awsGetMetadata, getMetadataFromCache, getMetadataFromServer,
      getMetadataFromServerImdsV1, getMetadataFromServerImdsV2, getToken, hmem,
      c6Env2, respBody200]
  refine ⟨?_, ?_, ?_⟩
  · rw [hS]
    exact hmem
  · rw [htrace]
    decide
  · rw [htrace]
    decide


/-- Lookup in a fact set extended on the right: the old binding wins, and
the new pair is found only when no old binding exists. -/
theorem lookupFact_append (fs : FactSet) (p : String × FactValue) (k2 : String) :
    lookupFact (fs ++ [p]) k2
      = match lookupFact fs k2 with
        | some w => some w
        | none => if p.1 == k2 then some p.2 else none := by
  unfold lookupFact
  induction fs with
  | nil =>
    simp only [List.nil_append, List.find?]
    cases hq : (p.1 == k2) <;> simp [List.find?, hq]
  | cons q rest ih =>
    simp only [List.cons_append, List.find?]
    cases hq : (q.1 == k2) with
    | true => simp [hq]
    | false =>
      simp only [hq]
      exact ih

/-- Extending a fact set leaves lookups of other keys unchanged. -/
theorem lookupFact_append_ne (fs : FactSet) (k : String) (w : FactValue)
    (k2 : String) (hne : k2 ≠ k) :
    lookupFact (fs ++ [(k, w)]) k2 = lookupFact fs k2 := by
  rw [lookupFact_append]
  cases hl : lookupFact fs k2 with
  | some u => rfl
  | none =>
    have hb : (k == k2) = false := beq_eq_false_iff_ne.mpr (Ne.symm hne)
    simp [hb]

/-- Extending a fact set at a fresh key makes that key's lookup find the
new value. -/
theorem lookupFact_append_self (fs : FactSet) (k : String) (w : FactValue)
    (hk : lookupFact fs k = none) :
    lookupFact (fs ++ [(k, w)]) k = some w := by
  rw [lookupFact_append, hk]
  simp

/-- The AWS scan flags of an extended fact set are one more scan step. -/
theorem awsScanFlags_append (fs : FactSet) (p : String × FactValue) :
    awsScanFlags (fs ++ [p]) = awsScanStep (awsScanFlags fs) p.2 := by
  unfold awsScanFlags
  rw [List.foldl_append]
  rfl

/-- The GCP scan flags of an extended fact set are one more scan step. -/
theorem gcpScanFlags_append (fs : FactSet) (p : String × FactValue) :
    gcpScanFlags (fs ++ [p]) = gcpScanStep (gcpScanFlags fs) p.2 := by
  unfold gcpScanFlags
  rw [List.foldl_append]
  rfl

/-- A scan step on a value whose AWS tier is already flagged leaves the
flags unchanged. -/
theorem awsScanStep_matched (fl : Bool × Bool × Bool) (v : String) (t : Nat)
    (h : awsTier v = some t) (hf : awsFlagOfTier fl t = true) :
    awsScanStep fl (FactValue.str v) = fl := by
  obtain ⟨a, b, c⟩ := fl
  by_cases h1 : strContains (strLower v) "amazon ec2" = true
  · have ht : t = 2 := by
      simp [awsTier, h1] at h
      omega
    subst ht
    have ha : a = true := hf
    subst ha
    simp [awsScanStep, h1]
  · by_cases h2 : strContains (strLower v) "amazon" = true
    · have ht : t = 1 := by
        simp [awsTier, h1, h2] at h
        omega
      subst ht
      have hb : b = true := hf
      subst hb
      simp [awsScanStep, h1, h2]
    · by_cases h3 : strContains (strLower v) "aws" = true
      · have ht : t = 0 := by
          simp [awsTier, h1, h2, h3] at h
          omega
        subst ht
        have hc : c = true := hf
        subst hc
        simp [awsScanStep, h1, h2, h3]
      · simp [awsTier, h1, h2, h3] at h

/-- A scan step on a value whose GCP tier is already flagged leaves the
flags unchanged. -/
theorem gcpScanStep_matched (fl : Bool × Bool) (v : String) (t : Nat)
    (h : gcpTier v = some t) (hf : gcpFlagOfTier fl t = true) :
    gcpScanStep fl (FactValue.str v) = fl := by
  obtain ⟨a, b⟩ := fl
  by_cases h1 : strContains (strLower v) "google" = true
  · have ht : t = 1 := by
      simp [gcpTier, h1] at h
      omega
    subst ht
    have ha : a = true := hf
    subst ha
    simp [gcpScanStep, h1]
  · by_cases h2 : strContains (strLower v) "gcp" = true
    · have ht : t = 0 := by
        simp [gcpTier, h1, h2] at h
        omega
      subst ht
      have hb : b = true := hf
      subst hb
      simp [gcpScanStep, h1, h2]
    · simp [gcpTier, h1, h2] at h

/-- C7: in the keyword scans, each tier contributes its weight at most
once.  Adding a further fact value (under a fresh key that is not one of
the specially consulted keys `virt.host_type` and `dmi.system.uuid`) whose
tier is already matched leaves the returned likelihood score unchanged, for
both the AWS and the GCP detector. -/
theorem keyword_tier_counts_once (fs : FactSet) (k v : String) (t : Nat)
    (hk : lookupFact fs k = none)
    (h1 : k ≠ "virt.host_type") (h2 : k ≠ "dmi.system.uuid") :
    (awsTier v = some t → awsFlagOfTier (awsScanFlags fs) t = true →
      awsIsLikelyRunningOnCloud (fs ++ [(k, FactValue.str v)])
        = awsIsLikelyRunningOnCloud fs)
    ∧ (gcpTier v = some t → gcpFlagOfTier (gcpScanFlags fs) t = true →
      gcpIsLikelyRunningOnCloud (fs ++ [(k, FactValue.str v)])
        = gcpIsLikelyRunningOnCloud fs) := by
  by_cases hg : k = "virt.is_guest"
  · subst hg
    have hvm1 : isVM fs = false := by
      unfold isVM
      rw [hk]
    have hvm2 : isVM (fs ++ [("virt.is_guest", FactValue.str v)]) = false := by
      unfold isVM
      rw [lookupFact_append_self fs _ _ hk]
    constructor
    · intro _ _
      simp [awsIsLikelyRunningOnCloud, hvm1, hvm2]
    · intro _ _
      simp [gcpIsLikelyRunningOnCloud, hvm1, hvm2]
  · have hvm : isVM (fs ++ [(k, FactValue.str v)]) = isVM fs := by
      unfold isVM
      rw [lookupFact_append_ne fs k _ _ (Ne.symm hg)]
    have hHost : lookupFact (fs ++ [(k, FactValue.str v)]) "virt.host_type"
        = lookupFact fs "virt.host_type" :=
      lookupFact_append_ne fs k _ _ (Ne.symm h1)
    have hUuid : lookupFact (fs ++ [(k, FactValue.str v)]) "dmi.system.uuid"
        = lookupFact fs "dmi.system.uuid" :=
      lookupFact_append_ne fs k _ _ (Ne.symm h2)
    constructor
    · intro hta htf
      have hfl : awsScanFlags (fs ++ [(k, FactValue.str v)]) = awsScanFlags fs := by
        rw [awsScanFlags_append]
        exact awsScanStep_matched (awsScanFlags fs) v t hta htf
      simp only [awsIsLikelyRunningOnCloud, hvm, hHost, hUuid, hfl]
    · intro hta htf
      have hfl : gcpScanFlags (fs ++ [(k, FactValue.str v)]) = gcpScanFlags fs := by
        rw [gcpScanFlags_append]
        exact gcpScanStep_matched (gcpScanFlags fs) v t hta htf
      simp only [gcpIsLikelyRunningOnCloud, hvm, hHost, hfl]

/-- Fact set for the C7 witness: a VM with one value matching the weak AWS
tier "aws" and one matching the weak GCP tier "gcp". -/
def c7Fs : FactSet :=
  [("virt.is_guest", FactValue.bool true),
   ("f1", FactValue.str "has aws"),
   ("f2", FactValue.str "has gcp")]

/-- Witness for C7: adding "aws gcp" (matching the already-matched weak
tiers of both providers) under the fresh key "f3" changes neither score. -/
theorem keyword_tier_counts_once_witness :
    awsIsLikelyRunningOnCloud (c7Fs ++ [("f3", FactValue.str "aws gcp")])
      = awsIsLikelyRunningOnCloud c7Fs
    ∧ gcpIsLikelyRunningOnCloud (c7Fs ++ [("f3", FactValue.str "aws gcp")])
      = gcpIsLikelyRunningOnCloud c7Fs :=
  ⟨(keyword_tier_counts_once c7Fs "f3" "aws gcp" 0 (by decide) (by decide)
      (by decide)).1 (by decide) (by decide),
   (keyword_tier_counts_once c7Fs "f3" "aws gcp" 0 (by decide) (by decide)
      (by decide)).2 (by decide) (by decide)⟩
